import Mathlib

/-!
Verification of `src/onedrivesdk/auth_provider.py` of the
`cardano/onedrive-sdk-python` repository, against its natural-language
specification.

The embedding is shallow.  Python values that come out of `json.loads` are
represented by the `Json` inductive; machine-level effects are made explicit:

* an HTTP exchange (`http_provider.send` followed by `json.loads` on the
  returned `.content`) is represented by a value of
  `Except FetchError Json` supplied to each operation — `.error` covers
  both a raising `send` and a `json.loads` failure, which the source treats
  identically at every call site (either both propagate, or both are caught
  by the same bare `except`);
* wall-clock time is an `Int`; inside the device-code polling loop each
  iteration advances time by `dur i + 1` ticks, i.e. by a strictly positive
  amount (the iteration always performs a network send, plus a
  `time.sleep(interval)` on the failure path, both folded into the
  duration stream `dur`);
* mutation of `self._session` is explicit state passing: each operation
  returns the provider state after the call, plus the list of HTTP requests
  it issued, the messages it printed, and so on.

`session.py` is imported by the source (`from .session import Session`) but
is not among the sources; the `Session` definitions below are therefore
modelled from the specification (see their doc comments), as are nothing
else — every other definition is translated from `auth_provider.py`.
-/

/-- Python values produced by `json.loads`: `None`, booleans, numbers
(integral, the only kind exercised here), strings, lists and dicts. -/
inductive Json where
  | null : Json
  | bool : Bool → Json
  | num : Int → Json
  | str : String → Json
  | arr : List Json → Json
  | obj : List (String × Json) → Json

/-- Failure of one HTTP exchange: either `http_provider.send` raised
(transport error) or `json.loads(response.content)` raised (parse error).
The source never distinguishes the two. -/
inductive FetchError where
  | transport : FetchError
  | parse : FetchError
deriving DecidableEq

/-- Python exceptions raised by the code under study.  The three
`RuntimeError`s of `auth_provider.py` are distinguished by their message:
`notAuthenticated` (lines 211, 224, 255), `missingRefreshToken`
(lines 228, 259) and `timeout` (line 190). -/
inductive PyError where
  | fetchFailed : FetchError → PyError
  | attributeError : PyError
  | keyError : String → PyError
  | typeError : PyError
  | valueError : PyError
  | notAuthenticated : PyError
  | missingRefreshToken : PyError
  | timeout : PyError
deriving DecidableEq

/-- Dict membership as an option: `d[k]` when `d` is a parsed JSON object
holding `k`, and `none` otherwise.  Used for
`rcont["refresh_token"] if "refresh_token" in rcont else None` (line 197),
where `rcont` is a parsed JSON object. -/
def jsonMember (j : Json) (k : String) : Option Json :=
  match j with
  | Json.obj fs => fs.lookup k
  | _ => none

/-- Python subscription `rcont[k]`: on a dict, the value at `k` or
`KeyError`; on any other JSON-decoded value, subscripting with a string
key raises `TypeError`. -/
def jsonIndex (j : Json) (k : String) : Except PyError Json :=
  match j with
  | Json.obj fs =>
    match fs.lookup k with
    | some v => Except.ok v
    | none => Except.error (PyError.keyError k)
  | _ => Except.error PyError.typeError

/-- Python `int(x)` on a JSON-decoded value: numbers pass through, numeric
strings are parsed (`ValueError` otherwise), booleans coerce to 0/1, and
`None`, lists and dicts raise `TypeError`. -/
def pyInt (j : Json) : Except PyError Int :=
  match j with
  | Json.num n => Except.ok n
  | Json.str s =>
    match s.toInt? with
    | some n => Except.ok n
    | none => Except.error PyError.valueError
  | Json.bool b => Except.ok (if b then 1 else 0)
  | _ => Except.error PyError.typeError

/-- Result of the attribute access `x.str()` (line 164,
`rcont["message"].str()`).  No value produced by `json.loads` — dict,
list, str, int, float, bool or None — has a method named `str`, so the
access raises `AttributeError` on every possible `x`. -/
def jsonDotStr (_ : Json) : Except PyError String :=
  Except.error PyError.attributeError

/-- A possibly-`None` Python string, as it appears as a form-data value
(`self._client_id` defaults to `None`). -/
def jsonOfOptStr (s : Option String) : Json :=
  match s with
  | some v => Json.str v
  | none => Json.null

mutual

/-- Python `str(x)` for a JSON-decoded value, as used by
`"bearer \x7b\x7d".format(...)` (line 219). -/
def pyStrOfJson : Json → String
  | Json.null => "None"
  | Json.bool true => "True"
  | Json.bool false => "False"
  | Json.num n => toString n
  | Json.str s => s
  | Json.arr xs => "[" ++ pyReprList xs ++ "]"
  | Json.obj fs => "\x7b" ++ pyReprFields fs ++ "\x7d"

/-- Python `repr(x)` for a JSON-decoded value (propagated into the
rendering of containers by `str`). -/
def pyReprOfJson : Json → String
  | Json.null => "None"
  | Json.bool true => "True"
  | Json.bool false => "False"
  | Json.num n => toString n
  | Json.str s => "\x27" ++ s ++ "\x27"
  | Json.arr xs => "[" ++ pyReprList xs ++ "]"
  | Json.obj fs => "\x7b" ++ pyReprFields fs ++ "\x7d"

/-- Comma-separated reprs of the elements of a list. -/
def pyReprList : List Json → String
  | [] => ""
  | [j] => pyReprOfJson j
  | j :: rest => pyReprOfJson j ++ ", " ++ pyReprList rest

/-- Comma-separated `key: value` reprs of the fields of a dict. -/
def pyReprFields : List (String × Json) → String
  | [] => ""
  | [(k, v)] => "\x27" ++ k ++ "\x27: " ++ pyReprOfJson v
  | (k, v) :: rest =>
    "\x27" ++ k ++ "\x27: " ++ pyReprOfJson v ++ ", " ++ pyReprFields rest

end

/-- One call on the HTTP capability:
`self._http_provider.send(method=..., headers=..., url=..., data=...)`.
Form-data values are JSON-decoded Python objects (`data` holds strings
from literals, but also `self._client_id`, which can be `None`). -/
structure HttpRequest where
  method : String
  headers : List (String × String)
  url : String
  data : List (String × Json)

/-- The `Content-Type` headers dict built at every send site
(lines 154, 175, 236, 268). -/
def formHeaders : List (String × String) :=
  [("Content-Type", "application/x-www-form-urlencoded")]

/-- Modelled from the spec: the `Session` class lives in
`onedrivesdk/session.py`, which is not among the sources.  Spec §2/§3: the
credential record holds token type, an absolute expiry instant (computed
from issue time + `expires_in`), access token, refresh token (optional),
client id and the token endpoint URL.  Token fields keep the raw
JSON-decoded values the constructor receives. -/
structure Session where
  token_type : Json
  expires_at : Int
  access_token : Json
  client_id : Option String
  auth_token_url : String
  refresh_token : Option Json

/-- Modelled from the spec: the `Session` constructor (spec §3: a Session
is created only from `token_type`, `expires_in`, `access_token`,
`client_id`, `auth_token_url`, optional `refresh_token` — the positional
order of the call at lines 192–197 — storing the absolute expiry instant
now + `expires_in`). -/
def Session.create (now : Int) (token_type : Json) (expiresIn : Json)
    (access_token : Json) (client_id : Option String) (auth_token_url : String)
    (refresh_token : Option Json) : Except PyError Session :=
  match pyInt expiresIn with
  | Except.error e => Except.error e
  | Except.ok n =>
    Except.ok
      { token_type := token_type
        expires_at := now + n
        access_token := access_token
        client_id := client_id
        auth_token_url := auth_token_url
        refresh_token := refresh_token }

/-- Modelled from the spec: `Session.is_expired` (spec §8: true iff the
current time is at least the recorded issue time plus `expires_in`,
i.e. at least the stored absolute expiry instant). -/
def Session.is_expired (s : Session) (now : Int) : Bool :=
  decide (s.expires_at ≤ now)

/-- Modelled from the spec: `Session.refresh_session` (spec §4.5: its
parameters are `expires_in`, `access_token`, `refresh_token`, parsed from
the JSON response; it updates the Session in place, the new expiry computed
from now + `expires_in`).  The call is given its Python positional-argument
list; as in Python, a call whose arity differs from the three declared
parameters raises `TypeError` before any field is written. -/
def Session.refresh_session (s : Session) (now : Int) (args : List Json) :
    Except PyError Session :=
  match args with
  | [expiresIn, accessToken, refreshToken] =>
    match pyInt expiresIn with
    | Except.error e => Except.error e
    | Except.ok n =>
      Except.ok
        { s with
          expires_at := now + n
          access_token := accessToken
          refresh_token := some refreshToken }
  | _ => Except.error PyError.typeError

/-- The provider state (`AuthProvider.__init__`, lines 63–68): client id,
tenant id, the derived token-endpoint URL, and the owned nullable Session.
The HTTP capability is not stored here: it is passed to each operation as
the outcome of the exchange it performs. -/
structure AuthProvider where
  client_id : Option String
  tenant_id : Option String
  auth_token_url : String
  session : Option Session

/-- `AuthProvider.__init__` (lines 40–68): both `client_id` and
`tenant_id` default to `None`; line 68 computes
`"https://login.microsoftonline.com/" + self._tenant_id + "/oauth2/token"`,
which raises `TypeError` when `tenant_id` is `None` (str + NoneType);
`self._session` starts as `None`. -/
def AuthProvider.init (client_id tenant_id : Option String) :
    Except PyError AuthProvider :=
  match tenant_id with
  | none => Except.error PyError.typeError
  | some t =>
    Except.ok
      { client_id := client_id
        tenant_id := some t
        auth_token_url := "https://login.microsoftonline.com/" ++ t ++ "/oauth2/token"
        session := none }

/-- Result of a session-refreshing operation (`refresh_token`,
`redeem_refresh_token`): the value of the call (`Except.ok` carries the
Session now stored), the provider state after the call, and the HTTP
requests issued during it. -/
structure StepResult where
  result : Except PyError Session
  state : AuthProvider
  requests : List HttpRequest

/-- Left-to-right evaluation of the three argument expressions of the
`refresh_session` call at lines 242–244:
`rcont["expires_in"], rcont["access_token"], rcont["refresh_token"]`.
The first failing subscription propagates. -/
def refreshArgs (rcont : Json) : Except PyError (List Json) :=
  match jsonIndex rcont "expires_in" with
  | Except.error e => Except.error e
  | Except.ok e1 =>
    match jsonIndex rcont "access_token" with
    | Except.error e => Except.error e
    | Except.ok a =>
      match jsonIndex rcont "refresh_token" with
      | Except.error e => Except.error e
      | Except.ok r => Except.ok [e1, a, r]

/-- Left-to-right evaluation of the four argument expressions of the
`refresh_session` call at lines 274–277:
`rcont["expires_in"], "", rcont["access_token"], rcont["refresh_token"]` —
note the extra empty-string literal in second position. -/
def redeemArgs (rcont : Json) : Except PyError (List Json) :=
  match jsonIndex rcont "expires_in" with
  | Except.error e => Except.error e
  | Except.ok e1 =>
    match jsonIndex rcont "access_token" with
    | Except.error e => Except.error e
    | Except.ok a =>
      match jsonIndex rcont "refresh_token" with
      | Except.error e => Except.error e
      | Except.ok r => Except.ok [e1, Json.str "", a, r]

/-- `AuthProvider.refresh_token` (lines 221–244): precondition checks on
the Session and its refresh token, then one POST of
`\x7brefresh_token, client_id, grant_type\x7d` (insertion order of the
dict at lines 230–234, values from the Session) to the Session's
`auth_token_url`, then field extraction and the in-place Session update.
`fetch` is the outcome of the send + `json.loads` exchange. -/
def AuthProvider.refresh_token (p : AuthProvider)
    (fetch : Except FetchError Json) (now : Int) : StepResult :=
  match p.session with
  | none => ⟨Except.error PyError.notAuthenticated, p, []⟩
  | some s =>
    match s.refresh_token with
    | none => ⟨Except.error PyError.missingRefreshToken, p, []⟩
    | some rt =>
      let req : HttpRequest :=
        { method := "POST"
          headers := formHeaders
          url := s.auth_token_url
          data := [("refresh_token", rt),
                   ("client_id", jsonOfOptStr s.client_id),
                   ("grant_type", Json.str "refresh_token")] }
      match fetch with
      | Except.error fe => ⟨Except.error (PyError.fetchFailed fe), p, [req]⟩
      | Except.ok rcont =>
        match refreshArgs rcont with
        | Except.error e => ⟨Except.error e, p, [req]⟩
        | Except.ok args =>
          match s.refresh_session now args with
          | Except.error e => ⟨Except.error e, p, [req]⟩
          | Except.ok s2 => ⟨Except.ok s2, { p with session := some s2 }, [req]⟩

/-- `AuthProvider.redeem_refresh_token` (lines 246–277): same
preconditions, then one POST of
`\x7bclient_id, refresh_token, grant_type, resource\x7d` (insertion order
of the dict at lines 261–266) to the provider's `auth_token_url`
(line 271, not the Session's), then the four-argument
`refresh_session` call of lines 274–277. -/
def AuthProvider.redeem_refresh_token (p : AuthProvider)
    (fetch : Except FetchError Json) (now : Int) (resource : String) :
    StepResult :=
  match p.session with
  | none => ⟨Except.error PyError.notAuthenticated, p, []⟩
  | some s =>
    match s.refresh_token with
    | none => ⟨Except.error PyError.missingRefreshToken, p, []⟩
    | some rt =>
      let req : HttpRequest :=
        { method := "POST"
          headers := formHeaders
          url := p.auth_token_url
          data := [("client_id", jsonOfOptStr s.client_id),
                   ("refresh_token", rt),
                   ("grant_type", Json.str "refresh_token"),
                   ("resource", Json.str resource)] }
      match fetch with
      | Except.error fe => ⟨Except.error (PyError.fetchFailed fe), p, [req]⟩
      | Except.ok rcont =>
        match redeemArgs rcont with
        | Except.error e => ⟨Except.error e, p, [req]⟩
        | Except.ok args =>
          match s.refresh_session now args with
          | Except.error e => ⟨Except.error e, p, [req]⟩
          | Except.ok s2 => ⟨Except.ok s2, { p with session := some s2 }, [req]⟩

/-- Result of `authenticate_request`: outcome, provider state after the
call (a refresh may have replaced the Session's fields), HTTP requests
issued, how many times `refresh_token` was entered, and the header options
appended to the request object. -/
structure ARResult where
  result : Except PyError Unit
  state : AuthProvider
  requests : List HttpRequest
  refreshCalls : Nat
  appended : List (String × String)

/-- `AuthProvider.authenticate_request` (lines 199–219): `NotAuthenticated`
when no Session is present; otherwise refresh first when
`self._session.is_expired()`, then append the single
`("Authorization", "bearer " + str(access_token))` header option
(lines 217–219). -/
def AuthProvider.authenticate_request (p : AuthProvider)
    (fetch : Except FetchError Json) (now : Int) : ARResult :=
  match p.session with
  | none => ⟨Except.error PyError.notAuthenticated, p, [], 0, []⟩
  | some s =>
    if s.is_expired now then
      let r := p.refresh_token fetch now
      match r.result with
      | Except.error e => ⟨Except.error e, r.state, r.requests, 1, []⟩
      | Except.ok s2 =>
        ⟨Except.ok (), r.state, r.requests, 1,
         [("Authorization", "bearer " ++ pyStrOfJson s2.access_token)]⟩
    else
      ⟨Except.ok (), p, [], 0,
       [("Authorization", "bearer " ++ pyStrOfJson s.access_token)]⟩

/-- The field extractions of lines 161–164 on the parsed init response:
`rcont["device_code"]`, `rcont["expires_in"]`, `rcont["interval"]`,
`rcont["message"].str()`, each evaluated in order, the first raising
expression propagating.  The last step (`jsonDotStr`) raises
`AttributeError` on every JSON-decoded value. -/
def authInitExtract (rcont : Json) :
    Except PyError (Json × Json × Json × String) :=
  match jsonIndex rcont "device_code" with
  | Except.error e => Except.error e
  | Except.ok device_code =>
    match jsonIndex rcont "expires_in" with
    | Except.error e => Except.error e
    | Except.ok expires_in =>
      match jsonIndex rcont "interval" with
      | Except.error e => Except.error e
      | Except.ok interval =>
        match jsonIndex rcont "message" with
        | Except.error e => Except.error e
        | Except.ok msg =>
          match jsonDotStr msg with
          | Except.error e => Except.error e
          | Except.ok message => Except.ok (device_code, expires_in, interval, message)

/-- The `while time.time() < t_end` loop of lines 179–187.  `pollFetch i`
is the outcome of the `i`-th send + `json.loads`; on success `rcont` is
replaced, on failure it is kept and the thread sleeps.  Time advances by
the strictly positive `dur i + 1` per iteration (send duration, plus the
`interval` sleep on the failure path).  Returns the final `rcont`, the
time at loop exit, and the number of polls sent. -/
def pollLoop (pollFetch : Nat → Except FetchError Json) (dur : Nat → Nat)
    (tEnd : Int) (i : Nat) (t : Int) (rcont : Option Json) :
    Option Json × Int × Nat :=
  if t < tEnd then
    pollLoop pollFetch dur tEnd (i + 1) (t + ((dur i : Int) + 1))
      (match pollFetch i with
       | Except.ok j => some j
       | Except.error _ => rcont)
  else
    (rcont, t, i)
termination_by (tEnd - t).toNat
decreasing_by omega

/-- The Session construction of lines 192–197 from the last parsed poll
response: `rcont["token_type"]`, `rcont["expires_in"]`,
`rcont["access_token"]`, the provider's `client_id` and
`_auth_token_url`, and `rcont["refresh_token"]` when present, else
`None`. -/
def sessionFromTokenResponse (p : AuthProvider) (now : Int) (rcont : Json) :
    Except PyError Session :=
  match jsonIndex rcont "token_type" with
  | Except.error e => Except.error e
  | Except.ok token_type =>
    match jsonIndex rcont "expires_in" with
    | Except.error e => Except.error e
    | Except.ok expiresIn =>
      match jsonIndex rcont "access_token" with
      | Except.error e => Except.error e
      | Except.ok access_token =>
        Session.create now token_type expiresIn access_token
          p.client_id p.auth_token_url (jsonMember rcont "refresh_token")

/-- Lines 178–197 of `authenticate`: `t_end = time.time() + int(expires_in)`,
the polling loop, the `time.time() >= t_end` re-check (monotone time: the
re-check sees a time no smaller than the one that ended the loop, here the
same instant), and on its else-branch the Session construction.  Returns
the outcome (`Except.ok` carries the Session to store), the exit time and
the number of polls sent. -/
def authenticatePollPhase (p : AuthProvider)
    (pollFetch : Nat → Except FetchError Json) (dur : Nat → Nat)
    (tStart : Int) (expiresIn : Int) : Except PyError Session × Int × Nat :=
  let tEnd := tStart + expiresIn
  let out := pollLoop pollFetch dur tEnd 0 tStart none
  if tEnd ≤ out.2.1 then
    (Except.error PyError.timeout, out.2.1, out.2.2)
  else
    match out.1 with
    | none =>
      (Except.error PyError.typeError, out.2.1, out.2.2)
    | some rcont =>
      match sessionFromTokenResponse p out.2.1 rcont with
      | Except.error e => (Except.error e, out.2.1, out.2.2)
      | Except.ok s => (Except.ok s, out.2.1, out.2.2)

/-- Result of a full `authenticate` run: outcome, provider state after the
call, messages printed, HTTP requests issued (the device-code init request
followed by one poll request per loop iteration), and the number of poll
requests sent. -/
structure AuthenticateResult where
  result : Except PyError Unit
  state : AuthProvider
  printed : List String
  requests : List HttpRequest
  pollsSent : Nat

/-- The device-code init request of lines 148–158:
POST `\x7bclient_id, resource\x7d` to `self._auth_token_url`. -/
def initRequest (p : AuthProvider) (resource : String) : HttpRequest :=
  { method := "POST"
    headers := formHeaders
    url := p.auth_token_url
    data := [("client_id", jsonOfOptStr p.client_id),
             ("resource", Json.str resource)] }

/-- The poll request of lines 168–184:
POST `\x7bresource, client_id, grant_type, code\x7d` to the same URL. -/
def pollRequest (p : AuthProvider) (resource : String) (device_code : Json) :
    HttpRequest :=
  { method := "POST"
    headers := formHeaders
    url := p.auth_token_url
    data := [("resource", Json.str resource),
             ("client_id", jsonOfOptStr p.client_id),
             ("grant_type", Json.str "device_code"),
             ("code", device_code)] }

/-- `AuthProvider.authenticate` (lines 145–197): the init POST, parse and
field extraction (including the raising `rcont["message"].str()`), the
`print(message)`, `int(expires_in)`, the polling phase, and on its
success the replacement of the stored Session.  `initFetch` is the
outcome of the init exchange, `pollFetch` of the successive poll
exchanges, `dur` their durations, `t0` the clock at line 178. -/
def AuthProvider.authenticate (p : AuthProvider) (resource : String)
    (initFetch : Except FetchError Json)
    (pollFetch : Nat → Except FetchError Json) (dur : Nat → Nat)
    (t0 : Int) : AuthenticateResult :=
  let ireq := initRequest p resource
  match initFetch with
  | Except.error fe =>
    ⟨Except.error (PyError.fetchFailed fe), p, [], [ireq], 0⟩
  | Except.ok rcont =>
    match authInitExtract rcont with
    | Except.error e => ⟨Except.error e, p, [], [ireq], 0⟩
    | Except.ok (device_code, expires_in, _interval, message) =>
      match pyInt expires_in with
      | Except.error e => ⟨Except.error e, p, [message], [ireq], 0⟩
      | Except.ok ei =>
        let phase := authenticatePollPhase p pollFetch dur t0 ei
        let reqs := ireq :: List.replicate phase.2.2 (pollRequest p resource device_code)
        match phase.1 with
        | Except.error e => ⟨Except.error e, p, [message], reqs, phase.2.2⟩
        | Except.ok s =>
          ⟨Except.ok (), { p with session := some s }, [message], reqs, phase.2.2⟩

/-- Token endpoint stored in the example Session (a tenantA endpoint). -/
def urlA : String := "https://login.microsoftonline.com/tenantA/oauth2/token"

/-- Token endpoint stored in the example provider (a tenantB endpoint,
distinct from `urlA`: `auth_token_url` is a mutable property and the
Session keeps the URL it was created with). -/
def urlB : String := "https://login.microsoftonline.com/tenantB/oauth2/token"

/-- An example Session holding a refresh token, expiring at instant 1000. -/
def exSessionOld : Session :=
  { token_type := Json.str "bearer"
    expires_at := 1000
    access_token := Json.str "oldAT"
    client_id := some "cid"
    auth_token_url := urlA
    refresh_token := some (Json.str "oldRT") }

/-- An example provider whose stored Session is `exSessionOld`. -/
def exProvider : AuthProvider :=
  { client_id := some "cid"
    tenant_id := some "tenantB"
    auth_token_url := urlB
    session := some exSessionOld }

/-- A Session without a refresh token, expiring at instant 50. -/
def exSessionNoRT : Session :=
  { token_type := Json.str "bearer"
    expires_at := 50
    access_token := Json.str "oldAT"
    client_id := some "cid"
    auth_token_url := urlA
    refresh_token := none }

/-- A provider whose Session lacks a refresh token. -/
def exNoRefresh : AuthProvider := { exProvider with session := some exSessionNoRT }

/-- A provider with no Session. -/
def exNoSession : AuthProvider := { exProvider with session := none }

/-- A provider whose Session is not yet expired at instant 10. -/
def exSessionFresh : Session := { exSessionOld with access_token := Json.str "freshAT" }

/-- A provider holding `exSessionFresh`. -/
def exFresh : AuthProvider := { exProvider with session := some exSessionFresh }

/-- The provider produced by `AuthProvider.init (some "appid") (some "contoso")`. -/
def exConstructed : AuthProvider :=
  { client_id := some "appid"
    tenant_id := some "contoso"
    auth_token_url := "https://login.microsoftonline.com/contoso/oauth2/token"
    session := none }

/-- A well-formed device-code initiation response (spec §6), with an
ordinary string `message`. -/
def exInitJson : Json :=
  Json.obj [("device_code", Json.str "DVC"),
            ("expires_in", Json.num 900),
            ("interval", Json.num 5),
            ("message", Json.str "To sign in, visit the verification page and enter the code")]

/-- A complete token response: `token_type`, `expires_in`, `access_token`
and `refresh_token` (spec §6). -/
def exTokenJson : Json :=
  Json.obj [("token_type", Json.str "bearer"),
            ("expires_in", Json.num 3600),
            ("access_token", Json.str "newAT"),
            ("refresh_token", Json.str "newRT")]

/-- The error of a failed subscription is a `KeyError` or a `TypeError`,
never the Timeout `RuntimeError` of line 190. -/
theorem jsonIndex_ne_timeout (j : Json) (k : String) (e : PyError)
    (h : jsonIndex j k = Except.error e) : e ≠ PyError.timeout := by
  intro hc
  subst hc
  unfold jsonIndex at h
  cases j with
  | null => simp at h
  | bool b => simp at h
  | num n => simp at h
  | str s => simp at h
  | arr xs => simp at h
  | obj fs =>
    cases hl : fs.lookup k with
    | some v => simp [hl] at h
    | none => simp [hl] at h

/-- The init-response field extraction of lines 161–164 fails on every
parsed response (at latest at `rcont["message"].str()`), and never with
the Timeout error. -/
theorem authInitExtract_fails (rcont : Json) :
    ∃ e, authInitExtract rcont = Except.error e ∧ e ≠ PyError.timeout := by
  unfold authInitExtract
  cases h1 : jsonIndex rcont "device_code" with
  | error e => exact ⟨e, rfl, jsonIndex_ne_timeout _ _ _ h1⟩
  | ok v1 =>
    cases h2 : jsonIndex rcont "expires_in" with
    | error e => exact ⟨e, rfl, jsonIndex_ne_timeout _ _ _ h2⟩
    | ok v2 =>
      cases h3 : jsonIndex rcont "interval" with
      | error e => exact ⟨e, rfl, jsonIndex_ne_timeout _ _ _ h3⟩
      | ok v3 =>
        cases h4 : jsonIndex rcont "message" with
        | error e => exact ⟨e, rfl, jsonIndex_ne_timeout _ _ _ h4⟩
        | ok msg => exact ⟨PyError.attributeError, rfl, by simp⟩

/-- If one of the three field subscriptions of lines 242–244 fails, the
argument evaluation fails. -/
theorem refreshArgs_error (rcont : Json)
    (h : (∃ e, jsonIndex rcont "expires_in" = Except.error e) ∨
         (∃ e, jsonIndex rcont "access_token" = Except.error e) ∨
         (∃ e, jsonIndex rcont "refresh_token" = Except.error e)) :
    ∃ e, refreshArgs rcont = Except.error e := by
  unfold refreshArgs
  cases h1 : jsonIndex rcont "expires_in" with
  | error e => exact ⟨e, rfl⟩
  | ok v1 =>
    cases h2 : jsonIndex rcont "access_token" with
    | error e => exact ⟨e, rfl⟩
    | ok v2 =>
      cases h3 : jsonIndex rcont "refresh_token" with
      | error e => exact ⟨e, rfl⟩
      | ok v3 =>
        rcases h with ⟨e, he⟩ | ⟨e, he⟩ | ⟨e, he⟩ <;> simp_all

/-- If one of the three field subscriptions of lines 274–277 fails, the
argument evaluation fails. -/
theorem redeemArgs_error (rcont : Json)
    (h : (∃ e, jsonIndex rcont "expires_in" = Except.error e) ∨
         (∃ e, jsonIndex rcont "access_token" = Except.error e) ∨
         (∃ e, jsonIndex rcont "refresh_token" = Except.error e)) :
    ∃ e, redeemArgs rcont = Except.error e := by
  unfold redeemArgs
  cases h1 : jsonIndex rcont "expires_in" with
  | error e => exact ⟨e, rfl⟩
  | ok v1 =>
    cases h2 : jsonIndex rcont "access_token" with
    | error e => exact ⟨e, rfl⟩
    | ok v2 =>
      cases h3 : jsonIndex rcont "refresh_token" with
      | error e => exact ⟨e, rfl⟩
      | ok v3 =>
        rcases h with ⟨e, he⟩ | ⟨e, he⟩ | ⟨e, he⟩ <;> simp_all

/-- The `while time.time() < t_end` loop only exits once the clock has
reached `t_end`: the exit time is always at least `tEnd`. -/
theorem pollLoop_le_time (pollFetch : Nat → Except FetchError Json)
    (dur : Nat → Nat) (tEnd : Int) :
    ∀ (i : Nat) (t : Int) (rcont : Option Json),
      tEnd ≤ (pollLoop pollFetch dur tEnd i t rcont).2.1 := by
  have key : ∀ (n : Nat) (i : Nat) (t : Int) (rcont : Option Json),
      (tEnd - t).toNat ≤ n → tEnd ≤ (pollLoop pollFetch dur tEnd i t rcont).2.1 := by
    intro n
    induction n with
    | zero =>
      intro i t rcont hn
      rw [pollLoop]
      have ht : ¬ t < tEnd := by omega
      rw [if_neg ht]
      show tEnd ≤ t
      omega
    | succ n ih =>
      intro i t rcont hn
      rw [pollLoop]
      by_cases ht : t < tEnd
      · rw [if_pos ht]
        exact ih _ _ _ (by omega)
      · rw [if_neg ht]
        show tEnd ≤ t
        omega
  intro i t rcont
  exact key (tEnd - t).toNat i t rcont le_rfl

/-- The resolution step of lines 189–197 always takes the Timeout branch:
the loop exits only once the re-checked clock has passed `t_end`, so the
Session-construction branch of lines 191–197 is unreachable. -/
theorem pollPhase_always_timeout (p : AuthProvider)
    (pollFetch : Nat → Except FetchError Json) (dur : Nat → Nat)
    (t0 expiresIn : Int) :
    (authenticatePollPhase p pollFetch dur t0 expiresIn).1 =
      Except.error PyError.timeout := by
  unfold authenticatePollPhase
  have h := pollLoop_le_time pollFetch dur (t0 + expiresIn) 0 t0 none
  simp only [if_pos h]

/-- C5: when the provider has no Session, `authenticate_request` fails
with `NotAuthenticated`, sends nothing on the HTTP capability, appends no
header, and leaves the provider state unchanged. -/
theorem C5_no_session_not_authenticated (p : AuthProvider)
    (fetch : Except FetchError Json) (now : Int) (h : p.session = none) :
    p.authenticate_request fetch now =
      ⟨Except.error PyError.notAuthenticated, p, [], 0, []⟩ := by
  unfold AuthProvider.authenticate_request
  rw [h]

/-- C5 witness: the theorem at a concrete provider without a Session. -/
theorem C5_witness :
    exNoSession.authenticate_request (Except.ok (Json.obj [])) 0 =
      ⟨Except.error PyError.notAuthenticated, exNoSession, [], 0, []⟩ :=
  C5_no_session_not_authenticated exNoSession (Except.ok (Json.obj [])) 0 rfl

/-- C6: `refresh_token` fails with `NotAuthenticated` when no Session is
stored and with `MissingRefreshToken` when the Session lacks a refresh
token; in both cases no HTTP request is sent and the state is unchanged. -/
theorem C6_refresh_token_preconditions (p : AuthProvider)
    (fetch : Except FetchError Json) (now : Int) :
    (p.session = none →
      p.refresh_token fetch now =
        ⟨Except.error PyError.notAuthenticated, p, []⟩) ∧
    (∀ s : Session, p.session = some s → s.refresh_token = none →
      p.refresh_token fetch now =
        ⟨Except.error PyError.missingRefreshToken, p, []⟩) := by
  constructor
  · intro h
    unfold AuthProvider.refresh_token
    rw [h]
  · intro s hs hrt
    simp [AuthProvider.refresh_token, hs, hrt]

/-- C6 witness: the theorem at a provider without a Session and at one
whose Session lacks a refresh token. -/
theorem C6_witness :
    (exNoSession.refresh_token (Except.ok (Json.obj [])) 0 =
      ⟨Except.error PyError.notAuthenticated, exNoSession, []⟩) ∧
    (exNoRefresh.refresh_token (Except.ok (Json.obj [])) 0 =
      ⟨Except.error PyError.missingRefreshToken, exNoRefresh, []⟩) :=
  ⟨(C6_refresh_token_preconditions exNoSession (Except.ok (Json.obj [])) 0).1 rfl,
   (C6_refresh_token_preconditions exNoRefresh (Except.ok (Json.obj [])) 0).2
     exSessionNoRT rfl rfl⟩

/-- C10: construction with the default `tenant_id` of `None` raises
`TypeError` at the URL concatenation of line 68; every successfully
constructed provider has a string tenant id `t`, its initial
`auth_token_url` is the templated Microsoft endpoint for `t`, and its
Session starts absent. -/
theorem C10_tenant_id_required :
    (∀ cid : Option String,
      AuthProvider.init cid none = Except.error PyError.typeError) ∧
    (∀ (cid tid : Option String) (p : AuthProvider),
      AuthProvider.init cid tid = Except.ok p →
      ∃ t : String, tid = some t ∧
        p.auth_token_url = "https://login.microsoftonline.com/" ++ t ++ "/oauth2/token" ∧
        p.tenant_id = some t ∧ p.session = none) := by
  constructor
  · intro cid
    rfl
  · intro cid tid p h
    cases tid with
    | none => exact absurd h (by simp [AuthProvider.init])
    | some t =>
      unfold AuthProvider.init at h
      injection h with h2
      subst h2
      exact ⟨t, rfl, rfl, rfl, rfl⟩

/-- C10 witness: the theorem at a concrete construction. -/
theorem C10_witness :
    ∃ t : String, (some "contoso" : Option String) = some t ∧
      exConstructed.auth_token_url =
        "https://login.microsoftonline.com/" ++ t ++ "/oauth2/token" ∧
      exConstructed.tenant_id = some t ∧ exConstructed.session = none :=
  C10_tenant_id_required.2 (some "appid") (some "contoso") exConstructed rfl

/-- C7: `refresh_token` POSTs `\x7brefresh_token, client_id, grant_type\x7d`
to the Session's stored `auth_token_url` (lines 230–240), while
`redeem_refresh_token` POSTs
`\x7bclient_id, refresh_token, grant_type, resource\x7d` to the provider's
`auth_token_url` (lines 261–272); when the two URLs differ, the two
operations contact different endpoints. -/
theorem C7_request_targets (p : AuthProvider) (s : Session) (rt : Json)
    (fetch : Except FetchError Json) (now : Int) (resource : String)
    (hs : p.session = some s) (hrt : s.refresh_token = some rt) :
    (p.refresh_token fetch now).requests =
      [⟨"POST", formHeaders, s.auth_token_url,
        [("refresh_token", rt), ("client_id", jsonOfOptStr s.client_id),
         ("grant_type", Json.str "refresh_token")]⟩] ∧
    (p.redeem_refresh_token fetch now resource).requests =
      [⟨"POST", formHeaders, p.auth_token_url,
        [("client_id", jsonOfOptStr s.client_id), ("refresh_token", rt),
         ("grant_type", Json.str "refresh_token"),
         ("resource", Json.str resource)]⟩] ∧
    (s.auth_token_url ≠ p.auth_token_url →
      ∀ r1 ∈ (p.refresh_token fetch now).requests,
        ∀ r2 ∈ (p.redeem_refresh_token fetch now resource).requests,
          r1.url ≠ r2.url) := by
  have h1 : (p.refresh_token fetch now).requests =
      [⟨"POST", formHeaders, s.auth_token_url,
        [("refresh_token", rt), ("client_id", jsonOfOptStr s.client_id),
         ("grant_type", Json.str "refresh_token")]⟩] := by
    unfold AuthProvider.refresh_token
    rw [hs]
    cases fetch with
    | error fe => simp [hrt]
    | ok rcont =>
      cases hra : refreshArgs rcont with
      | error e => simp [hrt, hra]
      | ok args =>
        cases hrs : s.refresh_session now args with
        | error e => simp [hrt, hra, hrs]
        | ok s2 => simp [hrt, hra, hrs]
  have h2 : (p.redeem_refresh_token fetch now resource).requests =
      [⟨"POST", formHeaders, p.auth_token_url,
        [("client_id", jsonOfOptStr s.client_id), ("refresh_token", rt),
         ("grant_type", Json.str "refresh_token"),
         ("resource", Json.str resource)]⟩] := by
    unfold AuthProvider.redeem_refresh_token
    rw [hs]
    cases fetch with
    | error fe => simp [hrt]
    | ok rcont =>
      cases hra : redeemArgs rcont with
      | error e => simp [hrt, hra]
      | ok args =>
        cases hrs : s.refresh_session now args with
        | error e => simp [hrt, hra, hrs]
        | ok s2 => simp [hrt, hra, hrs]
  refine ⟨h1, h2, ?_⟩
  intro hne r1 hm1 r2 hm2
  rw [h1] at hm1
  rw [h2] at hm2
  simp only [List.mem_singleton] at hm1 hm2
  subst hm1
  subst hm2
  simpa using hne

/-- C7 witness: the theorem at a provider whose Session stores a tenantA
endpoint while the provider holds a tenantB endpoint. -/
theorem C7_witness :
    (exProvider.refresh_token (Except.error FetchError.transport) 0).requests =
      [⟨"POST", formHeaders, exSessionOld.auth_token_url,
        [("refresh_token", Json.str "oldRT"),
         ("client_id", jsonOfOptStr exSessionOld.client_id),
         ("grant_type", Json.str "refresh_token")]⟩] ∧
    (exProvider.redeem_refresh_token (Except.error FetchError.transport) 0
        "https://res").requests =
      [⟨"POST", formHeaders, exProvider.auth_token_url,
        [("client_id", jsonOfOptStr exSessionOld.client_id),
         ("refresh_token", Json.str "oldRT"),
         ("grant_type", Json.str "refresh_token"),
         ("resource", Json.str "https://res")]⟩] :=
  ⟨(C7_request_targets exProvider exSessionOld (Json.str "oldRT")
      (Except.error FetchError.transport) 0 "https://res" rfl rfl).1,
   (C7_request_targets exProvider exSessionOld (Json.str "oldRT")
      (Except.error FetchError.transport) 0 "https://res" rfl rfl).2.1⟩

/-- C9: for a provider holding a Session with a refresh token, both
`refresh_token` and `redeem_refresh_token` are atomic with respect to the
Session: whenever the call fails the state is unchanged; a failed exchange
(raising `send` or unparseable body) propagates as that failure; and a
missing `expires_in`, `access_token` or `refresh_token` field in the
parsed response makes both calls fail, the update never having begun. -/
theorem C9_refresh_atomicity (p : AuthProvider) (s : Session) (rt : Json)
    (now : Int) (resource : String)
    (hs : p.session = some s) (hrt : s.refresh_token = some rt) :
    (∀ (fetch : Except FetchError Json) (e : PyError),
      ((p.refresh_token fetch now).result = Except.error e →
        (p.refresh_token fetch now).state = p) ∧
      ((p.redeem_refresh_token fetch now resource).result = Except.error e →
        (p.redeem_refresh_token fetch now resource).state = p)) ∧
    (∀ fe : FetchError,
      (p.refresh_token (Except.error fe) now).result =
        Except.error (PyError.fetchFailed fe) ∧
      (p.redeem_refresh_token (Except.error fe) now resource).result =
        Except.error (PyError.fetchFailed fe)) ∧
    (∀ rcont : Json,
      ((∃ e, jsonIndex rcont "expires_in" = Except.error e) ∨
       (∃ e, jsonIndex rcont "access_token" = Except.error e) ∨
       (∃ e, jsonIndex rcont "refresh_token" = Except.error e)) →
      (∃ e, (p.refresh_token (Except.ok rcont) now).result = Except.error e) ∧
      (∃ e, (p.redeem_refresh_token (Except.ok rcont) now resource).result =
        Except.error e)) := by
  refine ⟨?_, ?_, ?_⟩
  · intro fetch e
    constructor
    · intro he
      unfold AuthProvider.refresh_token at he ⊢
      rw [hs] at he ⊢
      cases fetch with
      | error fe => simp [hrt]
      | ok rcont =>
        cases hra : refreshArgs rcont with
        | error e2 => simp [hrt, hra]
        | ok args =>
          cases hrs : s.refresh_session now args with
          | error e2 => simp [hrt, hra, hrs]
          | ok s2 => simp [hrt, hra, hrs] at he
    · intro he
      unfold AuthProvider.redeem_refresh_token at he ⊢
      rw [hs] at he ⊢
      cases fetch with
      | error fe => simp [hrt]
      | ok rcont =>
        cases hra : redeemArgs rcont with
        | error e2 => simp [hrt, hra]
        | ok args =>
          cases hrs : s.refresh_session now args with
          | error e2 => simp [hrt, hra, hrs]
          | ok s2 => simp [hrt, hra, hrs] at he
  · intro fe
    constructor
    · unfold AuthProvider.refresh_token
      rw [hs]
      simp [hrt]
    · unfold AuthProvider.redeem_refresh_token
      rw [hs]
      simp [hrt]
  · intro rcont h
    constructor
    · obtain ⟨e, ha⟩ := refreshArgs_error rcont h
      refine ⟨e, ?_⟩
      unfold AuthProvider.refresh_token
      rw [hs]
      simp [hrt, ha]
    · obtain ⟨e, ha⟩ := redeemArgs_error rcont h
      refine ⟨e, ?_⟩
      unfold AuthProvider.redeem_refresh_token
      rw [hs]
      simp [hrt, ha]

/-- C9 witness: the theorem at a concrete provider, for a raising send. -/
theorem C9_witness :
    (exProvider.refresh_token (Except.error FetchError.transport) 0).result =
      Except.error (PyError.fetchFailed FetchError.transport) ∧
    (exProvider.redeem_refresh_token (Except.error FetchError.transport) 0
        "https://res").result =
      Except.error (PyError.fetchFailed FetchError.transport) :=
  (C9_refresh_atomicity exProvider exSessionOld (Json.str "oldRT") 0
    "https://res" rfl rfl).2.1 FetchError.transport

/-- C4 counterexample: a provider whose Session exists (expired, without a
refresh token) on which `authenticate_request` appends no header at all —
the claim required exactly one appended Authorization header for every
provider whose Session exists. -/
theorem C4_counterexample :
    exNoRefresh.session.isSome = true ∧
    (exNoRefresh.authenticate_request (Except.ok (Json.obj [])) 100).appended = [] ∧
    (exNoRefresh.authenticate_request (Except.ok (Json.obj [])) 100).result =
      Except.error PyError.missingRefreshToken ∧
    (exNoRefresh.authenticate_request (Except.ok (Json.obj [])) 100).refreshCalls = 1 :=
  ⟨rfl, rfl, rfl, rfl⟩

/-- C4 (amended): with a Session present, `authenticate_request` enters
`refresh_token` exactly once when the Session is expired and not at all
otherwise; when the refresh (if any) succeeds, exactly one
`("Authorization", "bearer " + access_token)` header option is appended,
with the possibly-refreshed Session's access token; when the refresh
fails, its error propagates and no header is appended. -/
theorem C4_header_and_refresh (p : AuthProvider) (s : Session)
    (fetch : Except FetchError Json) (now : Int) (h : p.session = some s) :
    (s.is_expired now = false →
      p.authenticate_request fetch now =
        ⟨Except.ok (), p, [], 0,
         [("Authorization", "bearer " ++ pyStrOfJson s.access_token)]⟩) ∧
    (s.is_expired now = true →
      (p.authenticate_request fetch now).refreshCalls = 1 ∧
      (∀ e : PyError, (p.refresh_token fetch now).result = Except.error e →
        (p.authenticate_request fetch now).result = Except.error e ∧
        (p.authenticate_request fetch now).appended = []) ∧
      (∀ s2 : Session, (p.refresh_token fetch now).result = Except.ok s2 →
        (p.authenticate_request fetch now).result = Except.ok () ∧
        (p.authenticate_request fetch now).appended =
          [("Authorization", "bearer " ++ pyStrOfJson s2.access_token)])) := by
  constructor
  · intro hexp
    simp [AuthProvider.authenticate_request, h, hexp]
  · intro hexp
    refine ⟨?_, ?_, ?_⟩
    · cases hr : (p.refresh_token fetch now).result with
      | error e => simp [AuthProvider.authenticate_request, h, hexp, hr]
      | ok s2 => simp [AuthProvider.authenticate_request, h, hexp, hr]
    · intro e he
      constructor <;> simp [AuthProvider.authenticate_request, h, hexp, he]
    · intro s2 hok
      constructor <;> simp [AuthProvider.authenticate_request, h, hexp, hok]

/-- C4 witness: the amended theorem at a provider with a fresh Session —
no refresh call, one bearer header with the stored access token. -/
theorem C4_witness :
    exFresh.authenticate_request (Except.ok (Json.obj [])) 10 =
      ⟨Except.ok (), exFresh, [], 0, [("Authorization", "bearer freshAT")]⟩ :=
  (C4_header_and_refresh exFresh exSessionFresh (Except.ok (Json.obj [])) 10
    rfl).1 rfl

/-- C8: on every parsed device-code initiation response carrying the §6
fields with an ordinary string `message`, `authenticate` raises
`AttributeError` at `rcont["message"].str()` (line 164) — before the
message is printed, before any poll request is sent — and the provider's
prior Session is unchanged. -/
theorem C8_message_attribute_error (p : AuthProvider) (resource : String)
    (pollFetch : Nat → Except FetchError Json) (dur : Nat → Nat) (t0 : Int)
    (rcont : Json) (m : String)
    (hdc : ∃ v, jsonIndex rcont "device_code" = Except.ok v)
    (hei : ∃ v, jsonIndex rcont "expires_in" = Except.ok v)
    (hiv : ∃ v, jsonIndex rcont "interval" = Except.ok v)
    (hm : jsonIndex rcont "message" = Except.ok (Json.str m)) :
    p.authenticate resource (Except.ok rcont) pollFetch dur t0 =
      ⟨Except.error PyError.attributeError, p, [], [initRequest p resource], 0⟩ := by
  obtain ⟨dc, hdc⟩ := hdc
  obtain ⟨ei, hei⟩ := hei
  obtain ⟨iv, hiv⟩ := hiv
  have hx : authInitExtract rcont = Except.error PyError.attributeError := by
    unfold authInitExtract
    rw [hdc, hei, hiv, hm]
    rfl
  simp [AuthProvider.authenticate, hx]

/-- C8 witness: the theorem at a concrete well-formed initiation
response. -/
theorem C8_witness :
    exProvider.authenticate "https://res" (Except.ok exInitJson)
        (fun _ => Except.error FetchError.transport) (fun _ => 0) 0 =
      ⟨Except.error PyError.attributeError, exProvider, [],
       [initRequest exProvider "https://res"], 0⟩ :=
  C8_message_attribute_error exProvider "https://res"
    (fun _ => Except.error FetchError.transport) (fun _ => 0) 0 exInitJson
    "To sign in, visit the verification page and enter the code"
    ⟨Json.str "DVC", rfl⟩ ⟨Json.num 900, rfl⟩ ⟨Json.num 5, rfl⟩ rfl

/-- C1: evaluation at the failing input.  Every poll exchange — the first
included — parses as a complete token payload, each iteration takes one
tick and the deadline is 2 ticks away; yet the loop does not exit on the
first parsed response (a second poll is sent), and after the deadline the
phase raises Timeout instead of constructing a Session. -/
theorem C1_poll_continues_after_parsed_response :
    authenticatePollPhase exProvider (fun _ => Except.ok exTokenJson)
        (fun _ => 0) 0 2 =
      (Except.error PyError.timeout, 2, 2) := by
  have h2 : pollLoop (fun _ => Except.ok exTokenJson) (fun _ => 0) 2 2 2
      (some exTokenJson) = (some exTokenJson, 2, 2) := by
    rw [pollLoop]
    norm_num
  have h1 : pollLoop (fun _ => Except.ok exTokenJson) (fun _ => 0) 2 1 1
      (some exTokenJson) = (some exTokenJson, 2, 2) := by
    rw [pollLoop]
    norm_num [h2]
  have h0 : pollLoop (fun _ => Except.ok exTokenJson) (fun _ => 0) 2 0 0
      none = (some exTokenJson, 2, 2) := by
    rw [pollLoop]
    norm_num [h1]
  simp only [authenticatePollPhase]
  norm_num [h0]

/-- C2 counterexample: a run in which every poll attempt fails (the poll
stream raises on every index), for which the claim predicts the Timeout
error — but `authenticate` raises `AttributeError` at
`rcont["message"].str()` before any polling takes place. -/
theorem C2_counterexample :
    (exProvider.authenticate "https://res" (Except.ok exInitJson)
        (fun _ => Except.error FetchError.transport) (fun _ => 0) 0).result =
      Except.error PyError.attributeError ∧
    PyError.attributeError ≠ PyError.timeout :=
  ⟨rfl, by simp⟩

/-- C2 (amended): `authenticate` itself never raises Timeout — every run
fails during initiation (at latest at the `rcont["message"].str()` access)
with no poll sent, nothing printed and the stored Session unchanged; the
polling phase of lines 178–197, taken on its own, raises Timeout on every
run, whether or not any poll response parses before the deadline, so no
Session is ever created there either. -/
theorem C2_timeout_always_and_never :
    (∀ (p : AuthProvider) (resource : String)
        (initFetch : Except FetchError Json)
        (pollFetch : Nat → Except FetchError Json) (dur : Nat → Nat)
        (t0 : Int),
      ∃ e, (p.authenticate resource initFetch pollFetch dur t0).result =
          Except.error e ∧
        e ≠ PyError.timeout ∧
        (p.authenticate resource initFetch pollFetch dur t0).pollsSent = 0 ∧
        (p.authenticate resource initFetch pollFetch dur t0).state = p ∧
        (p.authenticate resource initFetch pollFetch dur t0).printed = []) ∧
    (∀ (p : AuthProvider) (pollFetch : Nat → Except FetchError Json)
        (dur : Nat → Nat) (t0 expiresIn : Int),
      (authenticatePollPhase p pollFetch dur t0 expiresIn).1 =
        Except.error PyError.timeout) := by
  constructor
  · intro p resource initFetch pollFetch dur t0
    cases initFetch with
    | error fe =>
      exact ⟨PyError.fetchFailed fe, rfl, by simp, rfl, rfl, rfl⟩
    | ok rcont =>
      obtain ⟨e, he, hne⟩ := authInitExtract_fails rcont
      refine ⟨e, ?_, hne, ?_, ?_, ?_⟩ <;>
        simp [AuthProvider.authenticate, he]
  · intro p pollFetch dur t0 expiresIn
    exact pollPhase_always_timeout p pollFetch dur t0 expiresIn

/-- C3: evaluation at the failing input.  The Session holds a refresh
token, the response carries `expires_in`, `access_token` ("newAT") and
`refresh_token`; yet `redeem_refresh_token` passes the extra empty-string
positional argument of line 275 into the three-parameter
`refresh_session`, so the update call fails with `TypeError` and the
stored access token keeps its old value instead of becoming "newAT". -/
theorem C3_redeem_discards_access_token :
    (exProvider.redeem_refresh_token (Except.ok exTokenJson) 2000
        "https://res").result = Except.error PyError.typeError ∧
    (exProvider.redeem_refresh_token (Except.ok exTokenJson) 2000
        "https://res").state = exProvider ∧
    exSessionOld.access_token = Json.str "oldAT" ∧
    Json.str "oldAT" ≠ Json.str "newAT" :=
  ⟨rfl, rfl, rfl, by simp⟩
